import Mathlib

/-!
Verification development for the flowsint map panel
(`src/flowsint-app/src/components/map/map-panel.tsx` and
`src/flowsint-app/src/components/map/map.tsx`).

The TypeScript/React code is shallowly embedded: JavaScript numbers are
modelled by `Rat` (every finite double is a rational; `NaN` is modelled by
`none` in `Option Rat` where it can arise), optional object properties by
`Option`, and code that can throw by `Except Unit`.  JavaScript truthiness
on the values that the code actually tests (numbers, strings, `undefined`)
is modelled explicitly.
-/

namespace Flowsint

/-- JavaScript truthiness of a possibly-absent number: `undefined` and `0`
are falsy.  (`NaN` cannot arise at the places this is used.) -/
def truthyNum : Option Rat → Bool
  | none => false
  | some q => q != 0

/-- JavaScript truthiness of a possibly-absent string: `undefined` and the
empty string are falsy. -/
def truthyStr : Option String → Bool
  | none => false
  | some s => s != ""

/-- JavaScript `v || d` for a possibly-absent number `v` and a number
default `d`. -/
def jsOrNum (v : Option Rat) (d : Rat) : Rat :=
  if truthyNum v then v.getD d else d

/-- JavaScript `a || b || ''` for possibly-absent strings. -/
def jsOrStr (a b : Option String) : String :=
  if truthyStr a then a.getD "" else if truthyStr b then b.getD "" else ""

/-- The node properties read by the map panel
(`node.nodeProperties.latitude`, `.longitude`, `.address`, `.name`,
`.label`, `.geometry`); each may be absent. -/
structure NodeProperties where
  latitude : Option Rat := none
  longitude : Option Rat := none
  address : Option String := none
  name : Option String := none
  label : Option String := none
  geometry : Option String := none
deriving DecidableEq

/-- A graph-store node as read by `MapPanel`. -/
structure GraphNode where
  nodeId : String
  nodeType : String
  nodeProperties : NodeProperties
deriving DecidableEq

/-- The `LocationPoint` type of `map.tsx`: every field is optional there.
The panel always fills `lat`, `lon`, `address`, `label`, `isOrigin`,
`isDestination` and `nodeType`, but the renderer accepts arbitrary
points. -/
structure LocationPoint where
  lat : Option Rat := none
  lon : Option Rat := none
  address : Option String := none
  label : Option String := none
  isOrigin : Option Bool := none
  isDestination : Option Bool := none
  geometry : Option String := none
  nodeType : Option String := none
deriving DecidableEq

/-- The `RouteData` type of `map.tsx`. -/
structure RouteData where
  coordinates : List (Rat × Rat)
  distanceM : Option Rat := none
  color : Option String := none
deriving DecidableEq

/-! ## Panel Controller (`map-panel.tsx`) -/

/-- The filter predicate of `locationNodes` (map-panel.tsx line 18):
`node.nodeType === 'location' || node.nodeType === 'place' ||
node.nodeType === 'building' ||
(node.nodeProperties.latitude && node.nodeProperties.longitude)`.
The last conjunct is JavaScript truthiness, so a latitude or longitude
that is absent *or equal to 0* does not qualify. -/
def qualifies (n : GraphNode) : Bool :=
  n.nodeType == "location" || n.nodeType == "place" || n.nodeType == "building" ||
    (truthyNum n.nodeProperties.latitude && truthyNum n.nodeProperties.longitude)

/-- The mapping step of `locationNodes` (map-panel.tsx lines 19-28).
`lat: node.nodeProperties.latitude || 0`, string fallbacks with `||`,
and the origin/destination flags
`selectedNodes.length === 2 && node.nodeId === selectedNodes[i].nodeId`. -/
def mkPoint (selectedNodes : List GraphNode) (n : GraphNode) : LocationPoint :=
  { lat := some (jsOrNum n.nodeProperties.latitude 0)
    lon := some (jsOrNum n.nodeProperties.longitude 0)
    address := some (jsOrStr n.nodeProperties.address n.nodeProperties.name)
    label := some (jsOrStr n.nodeProperties.label n.nodeProperties.name)
    isOrigin := some (selectedNodes.length == 2 &&
      ((selectedNodes.get? 0).elim false (fun s => n.nodeId == s.nodeId)))
    isDestination := some (selectedNodes.length == 2 &&
      ((selectedNodes.get? 1).elim false (fun s => n.nodeId == s.nodeId)))
    geometry := n.nodeProperties.geometry
    nodeType := some n.nodeType }

/-- Derived list `locationNodes` of `MapPanel` (map-panel.tsx lines 17-28):
`nodes.filter(...).map(...)`. -/
def locationNodes (nodes selectedNodes : List GraphNode) : List LocationPoint :=
  (nodes.filter qualifies).map (mkPoint selectedNodes)

/-- The filter predicate exactly as the claim words it: nodeType is one of
location/place/building, or the node *carries both* a latitude and a
longitude property (presence, not JavaScript truthiness). -/
def claimQualifies (n : GraphNode) : Bool :=
  n.nodeType == "location" || n.nodeType == "place" || n.nodeType == "building" ||
    (n.nodeProperties.latitude.isSome && n.nodeProperties.longitude.isSome)

/-- The filter predicate as the amended claim words it: nodeType is one of
location/place/building, or both latitude and longitude are present and
nonzero (JavaScript-truthy). -/
def amendedQualifies (n : GraphNode) : Bool :=
  n.nodeType == "location" || n.nodeType == "place" || n.nodeType == "building" ||
    (truthyNum n.nodeProperties.latitude && truthyNum n.nodeProperties.longitude)

/-- The panel state that the route query reads: the sketch id from the
route params (possibly absent) and the selected nodes. -/
structure PanelState where
  sketchId : Option String
  selectedNodes : List GraphNode
deriving DecidableEq

/-- The query gate `enabled: !!sketchId && selectedNodes.length === 2`
(map-panel.tsx line 49). -/
def routeQueryEnabled (s : PanelState) : Bool :=
  truthyStr s.sketchId && s.selectedNodes.length == 2

/-- The variable part of the query key
`['route', sketchId, selectedNodes.map(n => n.nodeId)]`
(map-panel.tsx line 31); the leading literal `'route'` is common to all
keys and omitted. -/
def routeQueryKey (s : PanelState) : Option String × List String :=
  (s.sketchId, s.selectedNodes.map (fun n => n.nodeId))

/-- Modelled from the spec: the query library (`useQuery`) is external
code, not part of this repository.  Per the spec, an enabled query issues
its network request the first time a given cache key is seen and serves
subsequent renders with the same key from its cache, so over a sequence of
panel states a request is issued at most once per distinct key, and only
for states whose query is enabled. -/
def issuedRouteRequests (states : List PanelState) :
    List (Option String × List String) :=
  ((states.filter routeQueryEnabled).map routeQueryKey).dedup

/-! ## Map Renderer (`map.tsx`): geocoding partition -/

/-- The filter `locationsToGeocode` (map.tsx lines 42-44):
`locations.filter(loc => loc.lat === undefined && loc.lon === undefined
&& loc.address)`; the last conjunct is truthiness, so an empty-string
address does not trigger geocoding. -/
def locationsToGeocode (locs : List LocationPoint) : List LocationPoint :=
  locs.filter (fun l => l.lat == none && l.lon == none && truthyStr l.address)

/-- A resolved coordinate pair `{lat, lon}`. -/
abbrev Coord := Rat × Rat

/-- The fields of the geocode `useQuery` result that the renderer reads:
`isLoading`, `isError` and `data` (a list with one entry per geocoded
address, `none` for a failed lookup; `data` itself is absent while no
result has arrived). -/
structure GeocodeQuery where
  isLoading : Bool
  isError : Bool
  data : Option (List (Option Coord))
deriving DecidableEq

/-- One step of `processedLocations` (map.tsx lines 73-103) for a single
point: if the point has both `lat` and `lon` defined, those are its
coordinates; else, if its address is found in the geocode list
(`findIndex` on `===`-equality of the possibly-absent address) and the
query has data, the coordinates are the data entry at that index
(`undefined`, i.e. `none`, when out of range); else `null` coordinates.
An out-of-range or `null` entry are both falsy downstream, so both are
`none` here. -/
def processOne (toGeocode : List LocationPoint) (q : GeocodeQuery)
    (l : LocationPoint) : LocationPoint × Option Coord :=
  match l.lat, l.lon with
  | some la, some lo => (l, some (la, lo))
  | _, _ =>
    match toGeocode.findIdx? (fun g => g.address == l.address), q.data with
    | some idx, some data => (l, (data.get? idx).join)
    | _, _ => (l, none)

/-- The list `processedLocations` (map.tsx lines 73-103), keeping each point paired
with its resolved coordinates. -/
def processedLocations (locs : List LocationPoint) (q : GeocodeQuery) :
    List (LocationPoint × Option Coord) :=
  locs.map (processOne (locationsToGeocode locs) q)

/-- The list `validCoordinates` (map.tsx lines 106-108):
`processedLocations.filter(l => l.coordinates).map(l => l.coordinates)`;
an object is truthy, so exactly the `some` coordinates survive. -/
def validCoordinates (locs : List LocationPoint) (q : GeocodeQuery) :
    List Coord :=
  (processedLocations locs q).filterMap (fun pc => pc.2)

/-! ## JSON serialization and the map surface identifier

`mapId` (map.tsx line 110) is
`leaflet-map-${btoa(JSON.stringify(locations)).replace(/[^a-zA-Z0-9]/g, '')}`.
`JSON.stringify` is modelled field by field: absent (`undefined`) fields
are omitted and present fields are emitted in the property-creation order
used by the panel, which coincides with the declaration order of
`LocationPoint`.  Number formatting is exact for integers and for
rationals with a finite decimal expansion (every JavaScript double that
reaches serialization is such a rational); other denominators fall back to
a fraction rendering, which no theorem relies on. -/

/-- Hexadecimal digit (lower case), as used by `JSON.stringify`'s
`\u00XX` escapes for control characters. -/
def hexDigit (n : Nat) : Char :=
  "0123456789abcdef".data.getD n '0'

/-- JSON escaping of one character, per `JSON.stringify`. -/
def jsonEscapeChar (c : Char) : String :=
  if c = '"' then "\\\""
  else if c = '\\' then "\\\\"
  else if c = '\x08' then "\\b"
  else if c = '\x09' then "\\t"
  else if c = '\x0a' then "\\n"
  else if c = '\x0c' then "\\f"
  else if c = '\x0d' then "\\r"
  else if c.toNat < 32 then
    "\\u00" ++ String.mk [hexDigit (c.toNat / 16), hexDigit (c.toNat % 16)]
  else String.singleton c

/-- JSON string literal. -/
def jsonString (s : String) : String :=
  "\"" ++ String.join (s.data.map jsonEscapeChar) ++ "\""

/-- Digits of `n % 10^k` in order, left-padded with zeros to width `k`. -/
def natDigitsPadded (n k : Nat) : String :=
  String.mk ((List.range k).map (fun i => hexDigit (n / 10 ^ (k - 1 - i) % 10)))

/-- JSON number rendering: exact for integers and finite decimals. -/
def jsonNum (q : Rat) : String :=
  if q.den = 1 then toString q.num
  else
    match (List.range 100).find? (fun k => 10 ^ k % q.den == 0) with
    | some k =>
      let scaled := q.num.natAbs * (10 ^ k / q.den)
      (if q.num < 0 then "-" else "") ++ toString (scaled / 10 ^ k) ++ "." ++
        natDigitsPadded (scaled % 10 ^ k) k
    | none => toString q.num ++ "/" ++ toString q.den

/-- JSON boolean rendering. -/
def jsonBool (b : Bool) : String :=
  if b then "true" else "false"

/-- Serialization, per `JSON.stringify`, of one `LocationPoint`: present fields only, in
creation order. -/
def jsonOfPoint (p : LocationPoint) : String :=
  let fields : List String :=
    (p.lat.map (fun v => "\"lat\":" ++ jsonNum v)).toList ++
    (p.lon.map (fun v => "\"lon\":" ++ jsonNum v)).toList ++
    (p.address.map (fun v => "\"address\":" ++ jsonString v)).toList ++
    (p.label.map (fun v => "\"label\":" ++ jsonString v)).toList ++
    (p.isOrigin.map (fun b => "\"isOrigin\":" ++ jsonBool b)).toList ++
    (p.isDestination.map (fun b => "\"isDestination\":" ++ jsonBool b)).toList ++
    (p.geometry.map (fun v => "\"geometry\":" ++ jsonString v)).toList ++
    (p.nodeType.map (fun v => "\"nodeType\":" ++ jsonString v)).toList
  "\x7b" ++ String.intercalate "," fields ++ "\x7d"

/-- Serialization, per `JSON.stringify`, of the `locations` array. -/
def jsonStringify (locs : List LocationPoint) : String :=
  "[" ++ String.intercalate "," (locs.map jsonOfPoint) ++ "]"

/-- Whether every character of a string is Latin-1 (code point below 256),
the domain on which `btoa` is defined. -/
def latin1 (s : String) : Bool :=
  s.data.all (fun c => decide (c.toNat < 256))

/-- The base64 alphabet. -/
def b64Char (n : Nat) : Char :=
  "ABCDEFGHIJKLMNOPQRSTUVWXYZabcdefghijklmnopqrstuvwxyz0123456789+/".data.getD n 'A'

/-- Base64 encoding of a byte list, with `=` padding. -/
def base64Bytes : List Nat → List Char
  | [] => []
  | [b1] => [b64Char (b1 / 4), b64Char (b1 % 4 * 16), '=', '=']
  | [b1, b2] => [b64Char (b1 / 4), b64Char (b1 % 4 * 16 + b2 / 16),
      b64Char (b2 % 16 * 4), '=']
  | b1 :: b2 :: b3 :: rest =>
      b64Char (b1 / 4) :: b64Char (b1 % 4 * 16 + b2 / 16) ::
        b64Char (b2 % 16 * 4 + b3 / 64) :: b64Char (b3 % 64) :: base64Bytes rest

/-- The function `window.btoa`: base64 of the code points of a Latin-1 string; throws
`InvalidCharacterError` (modelled as `Except.error`) on any character with
code point 256 or above. -/
def btoa (s : String) : Except Unit String :=
  if latin1 s then .ok (String.mk (base64Bytes (s.data.map Char.toNat)))
  else .error ()

/-- The `.replace(/[^a-zA-Z0-9]/g, '')` step: keep only ASCII
alphanumerics. -/
def stripNonAlnum (s : String) : String :=
  String.mk (s.data.filter (fun c => c.isAlpha || c.isDigit))

/-- The identifier `mapId` (map.tsx line 110), as a computation that can throw (via
`btoa`). -/
def mapIdE (locs : List LocationPoint) : Except Unit String :=
  (btoa (jsonStringify locs)).map
    (fun b => "leaflet-map-" ++ stripNonAlnum b)

/-- The stripped base64 serialization of a point list, the part of the
identifier that varies. -/
def strippedB64 (locs : List LocationPoint) : Except Unit String :=
  (btoa (jsonStringify locs)).map stripNonAlnum

/-! ## Renderer output (map.tsx lines 266-321) -/

/-- The four possible rendered outputs of `MapFromAddress`. -/
inductive RenderOutput where
  | loadingView
  | errorView
  | noLocationView
  | mapView (mapId : String)
deriving DecidableEq

/-- The render function of `MapFromAddress`: `mapId` is computed during
render before any of the early returns, so a `btoa` throw (`Except.error`)
pre-empts every placeholder; otherwise the placeholders are chosen in the
source's order: geocoding loading, then geocoding error, then zero valid
coordinates, then the live map surface. -/
def renderComponent (locs : List LocationPoint) (q : GeocodeQuery) :
    Except Unit RenderOutput :=
  match mapIdE locs with
  | .error e => .error e
  | .ok mid =>
    .ok (if q.isLoading then .loadingView
      else if q.isError then .errorView
      else if (validCoordinates locs q).length == 0 then .noLocationView
      else .mapView mid)

/-! ## WKT polygon parsing (map.tsx lines 196-225)

The code runs `wkt.match(/POLYGON\s*\(\((.*?)\)\)/i)`, splits the capture
on `','`, and maps each piece through
`pair.trim().split(/\s+/).map(Number)`, destructuring the first two
entries as `[lon, lat]` and emitting `[lat, lon]`.  Fewer than 3 pairs
aborts without drawing.  All of this is total; the surrounding
`try`/`catch` never observes an exception from these operations. -/

/-- JavaScript regex `\s` on the characters that can appear here. -/
def jsWs (c : Char) : Bool :=
  c = ' ' || c = '\x09' || c = '\x0a' || c = '\x0b' || c = '\x0c' || c = '\x0d'

/-- Characters the regex `.` does not match (no `s` flag): line
terminators. -/
def jsDotExcluded (c : Char) : Bool :=
  c = '\x0a' || c = '\x0d'

/-- The lazy capture `(.*?)\)\)`: the shortest prefix (containing no line
terminator) that is followed by `))`. -/
def lazyCapture : List Char → Option (List Char)
  | ')' :: ')' :: _ => some []
  | c :: rest =>
    if jsDotExcluded c then none
    else (lazyCapture rest).map (fun cap => c :: cap)
  | [] => none

/-- Try to match `POLYGON\s*\(\((.*?)\)\)` (case-insensitively) at the
start of the given character list, returning the capture. -/
def matchPolygonAt (cs : List Char) : Option (List Char) :=
  if (cs.take 7).map Char.toLower = "polygon".data then
    match (cs.drop 7).dropWhile jsWs with
    | '(' :: '(' :: rest => lazyCapture rest
    | _ => none
  else none

/-- Scan for the leftmost match of the polygon regex, as
`String.prototype.match` does. -/
def wktInnerAux : List Char → Option (List Char)
  | [] => none
  | c :: rest =>
    match matchPolygonAt (c :: rest) with
    | some cap => some cap
    | none => wktInnerAux rest

/-- The capture group of `wkt.match(/POLYGON\s*\(\((.*?)\)\)/i)`, when
the regex matches (kept as a character list; all further processing is
character-based). -/
def wktInner (s : String) : Option (List Char) :=
  wktInnerAux s.data

/-- A JavaScript number that may be `NaN` (`none`). -/
abbrev JsNum := Option Rat

/-- Digit list to natural number. -/
def digitsToNat (ds : List Char) : Nat :=
  ds.foldl (fun a c => a * 10 + (c.toNat - 48)) 0

/-- Rational power with a natural exponent, by structural recursion. -/
def powRat (b : Rat) : Nat → Rat
  | 0 => 1
  | n + 1 => b * powRat b n

/-- JavaScript `String.prototype.trim` on a character list (JavaScript
also trims some Unicode spaces, which cannot occur in the strings
handled here). -/
def jsTrimList (l : List Char) : List Char :=
  ((l.dropWhile jsWs).reverse.dropWhile jsWs).reverse

/-- JavaScript `Number(string)` on the decimal numerals that can occur in WKT
coordinate text: trimmed; empty means `0`; optional sign; digits with an
optional fraction and exponent; anything else is `NaN` (`none`).
(JavaScript's further numeral forms — hex, binary, octal, `Infinity` —
are out of scope here; no theorem depends on them.) -/
def jsNumber (s : List Char) : JsNum :=
  match jsTrimList s with
  | [] => some 0
  | t =>
    let (sign, t1) : Rat × List Char :=
      match t with
      | '-' :: r => (-1, r)
      | '+' :: r => (1, r)
      | r => (1, r)
    let intDigits := t1.takeWhile Char.isDigit
    let t2 := t1.dropWhile Char.isDigit
    let (fracDigits, t3) : List Char × List Char :=
      match t2 with
      | '.' :: r => (r.takeWhile Char.isDigit, r.dropWhile Char.isDigit)
      | r => ([], r)
    if intDigits.isEmpty && fracDigits.isEmpty then none
    else
      let (expOk, expVal, t4) : Bool × Int × List Char :=
        match t3 with
        | 'e' :: r | 'E' :: r =>
          let (esign, r1) : Int × List Char :=
            match r with
            | '-' :: rr => (-1, rr)
            | '+' :: rr => (1, rr)
            | rr => (1, rr)
          let eds := r1.takeWhile Char.isDigit
          if eds.isEmpty then (false, 0, r)
          else (true, esign * (digitsToNat eds : Int), r1.dropWhile Char.isDigit)
        | r => (true, 0, r)
      if expOk && t4.isEmpty then
        let mant : Rat :=
          (digitsToNat intDigits : Rat) +
            (digitsToNat fracDigits : Rat) / powRat 10 fracDigits.length
        let scale : Rat :=
          if 0 ≤ expVal then powRat 10 expVal.toNat
          else 1 / powRat 10 (-expVal).toNat
        some (sign * mant * scale)
      else none

/-- The maximal non-whitespace chunks of a character list, in order. -/
def wsChunks : List Char → List Char → List (List Char)
  | [], acc => if acc.isEmpty then [] else [acc.reverse]
  | c :: rest, acc =>
    if jsWs c then
      if acc.isEmpty then wsChunks rest []
      else acc.reverse :: wsChunks rest []
    else wsChunks rest (c :: acc)

/-- JavaScript `split(/\s+/)` on an already-trimmed piece: the whitespace-run
chunks; splitting the empty string yields `[""]`, as in JavaScript. -/
def wsSplit (l : List Char) : List (List Char) :=
  if l.isEmpty then [[]] else wsChunks l []

/-- One coordinate pair: `const [lon, lat] = pair.trim().split(/\s+/)
.map(Number)` then `[lat, lon]`; a missing entry is `undefined`, and
`Number(undefined)` is `NaN`. -/
def parsePair (pair : List Char) : JsNum × JsNum :=
  let parts := wsSplit (jsTrimList pair)
  let lon := (parts.get? 0).bind jsNumber
  let lat := (parts.get? 1).bind jsNumber
  (lat, lon)

/-- JavaScript `String.prototype.split(',')`: pieces between commas, keeping empty
pieces, with `[""]` for the empty string. -/
def splitComma : List Char → List Char → List (List Char)
  | [], acc => [acc.reverse]
  | ',' :: rest, acc => acc.reverse :: splitComma rest []
  | c :: rest, acc => splitComma rest (c :: acc)

/-- The list `coordPairs` (map.tsx lines 206-209): the capture split on `','`,
each piece parsed. -/
def wktPairs (inner : List Char) : List (JsNum × JsNum) :=
  (splitComma inner []).map parsePair

/-- The polygon the renderer draws for one geometry string: `none` when
the regex does not match or fewer than 3 pairs result (map.tsx lines
203-211), otherwise the `[lat, lon]` pair list. -/
def parseBuildingPolygon (s : String) : Option (List (JsNum × JsNum)) :=
  match wktInner s with
  | none => none
  | some inner =>
    let ps := wktPairs inner
    if ps.length < 3 then none else some ps

/-- The condition under which no polygon is produced, as a boolean: the
regex does not match, or the matched text yields fewer than 3 pairs. -/
def noPolygonCond (s : String) : Bool :=
  match wktInner s with
  | none => true
  | some inner => decide ((wktPairs inner).length < 3)

/-! ## Map view setup (map.tsx lines 227-258)

The effect body, reached only when `validCoordinates.length > 0` (the
effect returns immediately on zero), issues view-setting commands in
source order: first, when a route with more than one coordinate pair is
supplied, `map.fitBounds(polyline.getBounds().pad(0.1))`; then,
unconditionally, the view block: `centerOnFirst` (and a nonempty
coordinate list) centers on the first coordinate at `zoom`; else more
than one coordinate fits bounds over all markers padded by 0.1; else a
single coordinate centers on it.  The later command overrides the
earlier one on the Leaflet map, so the final view is the last command. -/

/-- A view-setting command issued to the Leaflet map. -/
inductive ViewCmd where
  | fitRouteBounds (coords : List Coord) (pad : Rat)
  | setView (center : Coord) (zoom : Nat)
  | fitMarkerBounds (coords : List Coord) (pad : Rat)
deriving DecidableEq

/-- The route part: `if (route && route.coordinates &&
route.coordinates.length > 1)` — an array is truthy, so the test is
presence of a route with more than one pair. -/
def routeViewCmds (route : Option RouteData) : List ViewCmd :=
  match route with
  | some r =>
    if 1 < r.coordinates.length then
      [.fitRouteBounds r.coordinates (1 / 10)]
    else []
  | none => []

/-- The view-setting block (map.tsx lines 248-258).  `valid.headD (0, 0)`
stands for `validCoordinates[0]`; every branch that reads it is guarded
by a nonemptiness test. -/
def viewSetupCmds (valid : List Coord) (centerOnFirst : Bool) (zoom : Nat) :
    List ViewCmd :=
  if centerOnFirst && decide (0 < valid.length) then
    [.setView (valid.headD (0, 0)) zoom]
  else if 1 < valid.length then
    [.fitMarkerBounds valid (1 / 10)]
  else if valid.length == 1 then
    [.setView (valid.headD (0, 0)) zoom]
  else []

/-- All view-setting commands of one effect run, in order. -/
def effectViewCmds (valid : List Coord) (route : Option RouteData)
    (centerOnFirst : Bool) (zoom : Nat) : List ViewCmd :=
  if valid.length == 0 then []
  else routeViewCmds route ++ viewSetupCmds valid centerOnFirst zoom

/-- The final view after one effect run: the last view-setting command. -/
def finalViewCmd (valid : List Coord) (route : Option RouteData)
    (centerOnFirst : Bool) (zoom : Nat) : Option ViewCmd :=
  (effectViewCmds valid route centerOnFirst zoom).getLast?

/-- The view the amended claim predicts for a first coordinate `c` and
remaining coordinates `rest`: center on `c` when centering is requested,
else fit bounds over all markers when there is more than one coordinate,
else center on the single coordinate. -/
def amendedViewChoice (c : Coord) (rest : List Coord) (centerOnFirst : Bool)
    (zoom : Nat) : ViewCmd :=
  if centerOnFirst then .setView c zoom
  else if 0 < rest.length then .fitMarkerBounds (c :: rest) (1 / 10)
  else .setView c zoom

/-- The final view as the amended claim describes it: for a nonempty
resolved coordinate list, `amendedViewChoice` — independently of any
route. -/
def amendedFinalView (valid : List Coord) (centerOnFirst : Bool)
    (zoom : Nat) : Option ViewCmd :=
  match valid with
  | [] => none
  | c :: rest => some (amendedViewChoice c rest centerOnFirst zoom)

/-! ## Shared helpers and sample data for the theorems -/

/-- Whether an `Except` computation succeeded. -/
def isOkE {ε α : Type} : Except ε α → Bool
  | .ok _ => true
  | .error _ => false

instance {ε α : Type} [DecidableEq ε] [DecidableEq α] :
    DecidableEq (Except ε α) := fun x y =>
  match x, y with
  | .ok a, .ok b =>
    if h : a = b then isTrue (by rw [h])
    else isFalse (by intro hc; cases hc; exact h rfl)
  | .error a, .error b =>
    if h : a = b then isTrue (by rw [h])
    else isFalse (by intro hc; cases hc; exact h rfl)
  | .ok _, .error _ => isFalse (by intro hc; cases hc)
  | .error _, .ok _ => isFalse (by intro hc; cases hc)

/-- Left cancellation for string append. -/
theorem string_append_cancel_left {p s t : String} (h : p ++ s = p ++ t) :
    s = t := by
  have h2 : p.data ++ s.data = p.data ++ t.data := by
    simpa [String.data_append] using congrArg String.data h
  have h3 : s.data = t.data := List.append_cancel_left h2
  cases s
  cases t
  exact congrArg String.mk (by simpa using h3)

/-- A sample location node. -/
def nodeLoc : GraphNode := ⟨"a", "location", {}⟩

/-- A second sample location node. -/
def nodeLocB : GraphNode := ⟨"b", "location", {}⟩

/-- A node of unlisted type carrying a zero latitude: its coordinate
properties are present but the latitude is JavaScript-falsy. -/
def nodeZeroLat : GraphNode :=
  ⟨"z", "person", { latitude := some 0, longitude := some 1 }⟩

/-- A location node with only an address. -/
def nodeAddr : GraphNode := ⟨"c", "location", { address := some "x" }⟩

/-- A geocode query that is neither loading nor failed and has no data
(the state when nothing needs geocoding). -/
def geocodeIdle : GeocodeQuery := ⟨false, false, none⟩

/-- A point with explicit coordinates. -/
def pCoords : LocationPoint := { lat := some 1, lon := some 2 }

/-- A point with only a (nonempty) address. -/
def pAddr : LocationPoint := { address := some "x" }

/-- A panel state with two selected nodes but no sketch id. -/
def stateNoSketch : PanelState := ⟨none, [nodeLoc, nodeLocB]⟩

/-- A panel state with two selected nodes and a sketch id. -/
def stateWithSketch : PanelState := ⟨some "sketch-1", [nodeLoc, nodeLocB]⟩

/-! ## Claims -/

/-- Claim C1 (counterexample).  The claim includes in the derived point list
every node that carries both a latitude and a longitude property; but the
code tests JavaScript truthiness, so a node of unlisted type whose
latitude is present but `0` carries both properties yet is dropped. -/
theorem c1_counterexample :
    claimQualifies nodeZeroLat = true ∧
    locationNodes [nodeZeroLat] [] = [] := by decide

/-- Claim C1 (amended).  For every node list, the Panel Controller's derived
point list is exactly the nodes whose nodeType is location, place or
building, or whose latitude and longitude are both present and nonzero
(JavaScript-truthy), mapped to points in the original node order. -/
theorem c1_point_list_is_truthy_coordinate_filter
    (nodes selectedNodes : List GraphNode) :
    locationNodes nodes selectedNodes =
      (nodes.filter amendedQualifies).map (mkPoint selectedNodes) := rfl

/-- Claim C7 (confirmed).  Whenever the number of selected nodes is not
exactly two, the route query is disabled, no route request is issued over
any render sequence of such states, and every derived point has both
flags `false`. -/
theorem c7_no_flags_no_request
    (sid : Option String) (sel nodes : List GraphNode) (p : LocationPoint)
    (states : List PanelState)
    (h : sel.length ≠ 2) (hstates : ∀ s ∈ states, s.selectedNodes.length ≠ 2) :
    routeQueryEnabled ⟨sid, sel⟩ = false ∧
    issuedRouteRequests states = [] ∧
    (p ∈ locationNodes nodes sel →
      p.isOrigin = some false ∧ p.isDestination = some false) := by
  have hlen : (sel.length == 2) = false := beq_eq_false_iff_ne.mpr h
  refine ⟨?_, ?_, ?_⟩
  · simp [routeQueryEnabled, hlen]
  · have hfil : states.filter routeQueryEnabled = [] := by
      rw [List.filter_eq_nil_iff]
      intro s hs
      have := beq_eq_false_iff_ne.mpr (hstates s hs)
      simp [routeQueryEnabled, this]
    simp [issuedRouteRequests, hfil]
  · intro hp
    simp only [locationNodes, List.mem_map, List.mem_filter] at hp
    obtain ⟨n, _, rfl⟩ := hp
    simp [mkPoint, hlen]

/-- Claim C7 witness: no flags and no request for an empty selection with a
sketch open. -/
theorem c7_witness :
    routeQueryEnabled ⟨some "sketch-1", []⟩ = false ∧
    issuedRouteRequests [⟨some "sketch-1", []⟩] = [] ∧
    ((mkPoint [] nodeLoc).isOrigin = some false ∧
      (mkPoint [] nodeLoc).isDestination = some false) := by
  have h := c7_no_flags_no_request (some "sketch-1") [] [nodeLoc]
    (mkPoint [] nodeLoc) [⟨some "sketch-1", []⟩] (by decide) (by decide)
  exact ⟨h.1, h.2.1, h.2.2 (by decide)⟩

unseal Rat.mul Rat.add Rat.inv in
/-- Claim C8 (confirmed).  The WKT string `POLYGON((10 20, 11 21, 12 19))`
parses to `[[20,10],[21,11],[19,12]]` (lat, lon order), and any geometry
string for which the regex does not match or fewer than 3 coordinate
pairs result produces no polygon; the parse is a total function, so no
failure is thrown. -/
theorem c8_wkt_parse :
    parseBuildingPolygon "POLYGON((10 20, 11 21, 12 19))" =
      some [(some 20, some 10), (some 21, some 11), (some 19, some 12)] ∧
    ∀ s, noPolygonCond s = true → parseBuildingPolygon s = none := by
  refine ⟨by decide, ?_⟩
  intro s h
  unfold noPolygonCond at h
  unfold parseBuildingPolygon
  cases hw : wktInner s with
  | none => rfl
  | some inner =>
    rw [hw] at h
    simp only [decide_eq_true_eq] at h
    simp [h]

unseal Rat.mul Rat.add Rat.inv in
/-- Claim C8 witness: the concrete parse, and a two-pair polygon yielding no
polygon. -/
theorem c8_witness :
    parseBuildingPolygon "POLYGON((10 20, 11 21, 12 19))" =
      some [(some 20, some 10), (some 21, some 11), (some 19, some 12)] ∧
    parseBuildingPolygon "POLYGON((1 1, 2 2))" = none :=
  ⟨c8_wkt_parse.1, c8_wkt_parse.2 "POLYGON((1 1, 2 2))" (by decide)⟩

/-- Claim C9 (counterexample).  The claim says a point with an address and
no coordinates is always in the geocoding lookup set; but the code tests
the address for truthiness, so a present empty-string address is not
geocoded. -/
theorem c9_counterexample :
    ({ address := some "" } : LocationPoint).lat = none ∧
    ({ address := some "" } : LocationPoint).lon = none ∧
    ({ address := some "" } : LocationPoint).address.isSome = true ∧
    locationsToGeocode [{ address := some "" }] = [] := by decide

/-- Claim C9 (amended).  For every location point list: a point carrying
explicit lat and lon is never in the geocoding lookup set, and a point
with a nonempty (truthy) address and neither lat nor lon is always in
it. -/
theorem c9_geocode_partition (locs : List LocationPoint)
    (p : LocationPoint) (hmem : p ∈ locs) :
    (p.lat.isSome = true → p.lon.isSome = true →
      p ∉ locationsToGeocode locs) ∧
    (p.lat = none → p.lon = none → truthyStr p.address = true →
      p ∈ locationsToGeocode locs) := by
  constructor
  · intro hla _ hin
    rw [locationsToGeocode, List.mem_filter] at hin
    obtain ⟨-, hcond⟩ := hin
    simp only [Bool.and_eq_true, beq_iff_eq] at hcond
    rw [hcond.1.1] at hla
    simp at hla
  · intro hla hlo had
    rw [locationsToGeocode, List.mem_filter]
    exact ⟨hmem, by simp [hla, hlo, had]⟩

/-- Claim C9 witness: a coordinate-bearing point is not geocoded and an
address-only point is. -/
theorem c9_witness :
    pCoords ∉ locationsToGeocode [pCoords, pAddr] ∧
    pAddr ∈ locationsToGeocode [pCoords, pAddr] := by
  have h1 := c9_geocode_partition [pCoords, pAddr] pCoords (by decide)
  have h2 := c9_geocode_partition [pCoords, pAddr] pAddr (by decide)
  exact ⟨h1.1 (by decide) (by decide), h2.2 (by decide) (by decide) (by decide)⟩

/-- Claim C10 (confirmed).  Every panel-derived point has a defined lat and
lon (0 substituted for a missing coordinate), so the renderer's geocoding
lookup set is empty for panel input, and a qualifying node with no
latitude and longitude properties resolves to coordinates (0, 0) —
rendered as a marker there rather than geocoded. -/
theorem c10_panel_points_have_coordinates
    (nodes selectedNodes : List GraphNode) (q : GeocodeQuery)
    (toGeocode : List LocationPoint) (n : GraphNode) :
    locationsToGeocode (locationNodes nodes selectedNodes) = [] ∧
    (∀ p ∈ locationNodes nodes selectedNodes,
      p.lat.isSome = true ∧ p.lon.isSome = true) ∧
    (qualifies n = true → n.nodeProperties.latitude = none →
      n.nodeProperties.longitude = none →
      (processOne toGeocode q (mkPoint selectedNodes n)).2 = some (0, 0)) := by
  refine ⟨?_, ?_, ?_⟩
  · rw [locationsToGeocode, List.filter_eq_nil_iff]
    intro p hp
    simp only [locationNodes, List.mem_map, List.mem_filter] at hp
    obtain ⟨m, _, rfl⟩ := hp
    simp [mkPoint]
  · intro p hp
    simp only [locationNodes, List.mem_map, List.mem_filter] at hp
    obtain ⟨m, _, rfl⟩ := hp
    simp [mkPoint]
  · intro _ hla hlo
    simp [mkPoint, processOne, hla, hlo, jsOrNum, truthyNum]

/-- Claim C10 witness: a location node with only an address yields an empty
geocode set and a point resolved at (0, 0). -/
theorem c10_witness :
    locationsToGeocode (locationNodes [nodeAddr] []) = [] ∧
    (processOne [] geocodeIdle (mkPoint [] nodeAddr)).2 = some (0, 0) := by
  have h := c10_panel_points_have_coordinates [nodeAddr] [] geocodeIdle [] nodeAddr
  exact ⟨h.1, h.2.2 (by decide) rfl rfl⟩

unseal Rat.mul Rat.inv in
/-- Claim C2 (counterexample).  A route with two coordinate pairs is
supplied and one coordinate is resolved, with centering requested (the
default): the route bounds-fit is issued, but the final view-setting
command is the centering `setView`, so the final visible bounds do not
fit the route. -/
theorem c2_counterexample :
    finalViewCmd [((0 : Rat), (0 : Rat))]
        (some { coordinates := [(0, 0), (1, 1)] }) true 15 =
      some (ViewCmd.setView (0, 0) 15) ∧
    ViewCmd.fitRouteBounds [(0, 0), (1, 1)] (1 / 10) ∈
      effectViewCmds [((0 : Rat), (0 : Rat))]
        (some { coordinates := [(0, 0), (1, 1)] }) true 15 := by decide

/-- Claim C2 (amended).  The route bounds-fit (10% padding) is issued when
a route with at least two coordinate pairs is supplied, but it is then
always overridden: whenever at least one coordinate is resolved, the
final view is set by the view block — centering on the first resolved
point when centering is requested, else fitting bounds to all markers
(more than one point), else centering on the single point. -/
theorem c2_final_view_from_setup_block
    (valid : List Coord) (route : Option RouteData) (centerOnFirst : Bool)
    (zoom : Nat) (h : valid ≠ []) :
    finalViewCmd valid route centerOnFirst zoom =
      amendedFinalView valid centerOnFirst zoom ∧
    (∀ r, route = some r → 1 < r.coordinates.length →
      ViewCmd.fitRouteBounds r.coordinates (1 / 10) ∈
        effectViewCmds valid route centerOnFirst zoom) := by
  obtain ⟨c, rest, rfl⟩ : ∃ c rest, valid = c :: rest := by
    cases valid with
    | nil => exact absurd rfl h
    | cons c rest => exact ⟨c, rest, rfl⟩
  have hsetup : viewSetupCmds (c :: rest) centerOnFirst zoom =
      [amendedViewChoice c rest centerOnFirst zoom] := by
    cases centerOnFirst with
    | true => simp [viewSetupCmds, amendedViewChoice]
    | false =>
      cases rest with
      | nil => simp [viewSetupCmds, amendedViewChoice]
      | cons d ds => simp [viewSetupCmds, amendedViewChoice]
  constructor
  · rw [finalViewCmd, effectViewCmds]
    simp only [List.length_cons, hsetup]
    rw [if_neg (by simp)]
    rw [List.getLast?_concat]
    rfl
  · intro r hr hlen
    rw [effectViewCmds, if_neg (by simp)]
    apply List.mem_append_left
    simp [routeViewCmds, hr, hlen]

unseal Rat.mul Rat.inv in
/-- Claim C2 witness: with no route and centering off, two resolved points
get the marker bounds-fit as final view. -/
theorem c2_witness :
    finalViewCmd [((0 : Rat), (0 : Rat)), ((2 : Rat), (3 : Rat))] none false 7 =
      some (ViewCmd.fitMarkerBounds [(0, 0), (2, 3)] (1 / 10)) :=
  (c2_final_view_from_setup_block [((0 : Rat), (0 : Rat)), ((2 : Rat), (3 : Rat))]
    none false 7 (by decide)).1.trans (by decide)

/-- Claim C3 (counterexample).  One address-only point while geocoding is
in progress: zero coordinates are resolved, yet the rendered output is
the loading placeholder, not the "No location to display" placeholder. -/
theorem c3_counterexample :
    (validCoordinates [{ address := some "a" }] ⟨true, false, none⟩).length = 0 ∧
    renderComponent [{ address := some "a" }] ⟨true, false, none⟩ =
      .ok .loadingView := by decide

/-- Claim C3 (amended).  For every input whose identifier computation does
not throw, with zero resolved coordinates and geocoding neither in
progress nor failed, the rendered output is the "No location to display"
placeholder (regardless of any supplied route, which the placeholder
branches never consult); the loading and error placeholders take
priority. -/
theorem c3_no_location_placeholder (locs : List LocationPoint)
    (q : GeocodeQuery) (hok : isOkE (mapIdE locs) = true)
    (hl : q.isLoading = false) (he : q.isError = false)
    (hv : (validCoordinates locs q).length = 0) :
    renderComponent locs q = .ok .noLocationView := by
  rw [renderComponent]
  cases hm : mapIdE locs with
  | error e => rw [hm] at hok; simp [isOkE] at hok
  | ok mid => simp [hl, he, hv]

/-- Claim C3 witness: the empty location list renders the no-location
placeholder. -/
theorem c3_witness :
    renderComponent [] geocodeIdle = .ok .noLocationView :=
  c3_no_location_placeholder [] geocodeIdle (by decide) rfl rfl (by decide)

/-- Claim C4 (counterexample).  A single point whose label contains a
character above U+00FF: `JSON.stringify` keeps the character, `btoa`
throws on it before any placeholder or map can be returned, and the
render fails with an uncontained exception. -/
theorem c4_counterexample :
    renderComponent [{ label := some (String.mk ['Ā']) }] geocodeIdle =
      .error () := by decide

/-- Claim C4 (amended).  For every input whose serialized point list is
Latin-1 (every character below U+0100), the renderer completes without
throwing: geometry parsing is total (and guarded by a catch), and the
identifier computation succeeds, so the output is one of the contained
visual states.  A serialization containing a character above U+00FF makes
the identifier computation (`btoa`) throw an unhandled exception. -/
theorem c4_latin1_render_total (locs : List LocationPoint)
    (q : GeocodeQuery) (h : latin1 (jsonStringify locs) = true) :
    isOkE (renderComponent locs q) = true := by
  have hm : mapIdE locs = .ok ("leaflet-map-" ++
      stripNonAlnum (String.mk (base64Bytes
        ((jsonStringify locs).data.map Char.toNat)))) := by
    rw [mapIdE, btoa, if_pos h]
    rfl
  rw [renderComponent, hm]
  rfl

/-- Claim C4 witness: the empty location list renders without throwing. -/
theorem c4_witness : isOkE (renderComponent [] geocodeIdle) = true :=
  c4_latin1_render_total [] geocodeIdle (by decide)

/-- The first of two point lists that collide: base64 turns the byte of
`>` into a `+` and of `?` into a `/`, both of which the
alphanumeric-only replace deletes. -/
def c5ListA : List LocationPoint := [{ label := some ">" }]

/-- The second colliding point list. -/
def c5ListB : List LocationPoint := [{ label := some "?" }]

/-- Claim C5 (counterexample).  Two distinct location point lists whose
serializations differ only in a byte whose base64 image is a stripped
(non-alphanumeric) character: their map-surface identifiers coincide, so
the identifier function is not injective. -/
theorem c5_counterexample :
    mapIdE c5ListA = mapIdE c5ListB ∧ c5ListA ≠ c5ListB := by decide

/-- Claim C5 (amended).  The map-surface identifier separates exactly the
point lists whose serialized, base64-encoded, alphanumeric-stripped forms
differ: two lists receive distinct identifiers if and only if their
stripped base64 serializations are distinct (injectivity on raw point
lists fails, since stripping can conflate distinct serializations). -/
theorem c5_map_id_discriminates_stripped_base64
    (l1 l2 : List LocationPoint) :
    mapIdE l1 = mapIdE l2 ↔ strippedB64 l1 = strippedB64 l2 := by
  have key : ∀ l, mapIdE l =
      (strippedB64 l).map (fun s => "leaflet-map-" ++ s) := by
    intro l
    rw [mapIdE, strippedB64]
    cases btoa (jsonStringify l) <;> rfl
  rw [key l1, key l2]
  constructor
  · intro h
    cases h1 : strippedB64 l1 with
    | error e =>
      cases h2 : strippedB64 l2 with
      | error e2 => cases e; cases e2; rfl
      | ok s2 => rw [h1, h2] at h; exact absurd h (by simp [Except.map])
    | ok s1 =>
      cases h2 : strippedB64 l2 with
      | error e2 => rw [h1, h2] at h; exact absurd h (by simp [Except.map])
      | ok s2 =>
        rw [h1, h2] at h
        simp only [Except.map] at h
        exact congrArg Except.ok
          (string_append_cancel_left (Except.ok.inj h))
  · intro h
    rw [h]

/-- Claim C6 (counterexample).  Exactly two nodes are selected but no
sketch identifier is present: the query is disabled and no route request
is issued at all, while the claim requires one per distinct key. -/
theorem c6_counterexample :
    stateNoSketch.selectedNodes.length = 2 ∧
    issuedRouteRequests [stateNoSketch] = [] := by decide

/-- Claim C6 (amended).  When exactly two nodes `a, b` are selected, every
derived point is the image of a filtered node `n` with origin flag
`n.nodeId == a.nodeId` and destination flag `n.nodeId == b.nodeId`; and,
provided the sketch identifier is truthy, a route request keyed by
(sketchId, [first id, second id]) is issued — exactly once per distinct
key over any sequence of panel states: a key is issued if and only if
some state enables it, and the issued key list has no duplicates. -/
theorem c6_flags_and_request_once (nodes : List GraphNode)
    (a b : GraphNode) (states : List PanelState)
    (k : Option String × List String) :
    locationNodes nodes [a, b] =
      (nodes.filter qualifies).map (mkPoint [a, b]) ∧
    (∀ n, (mkPoint [a, b] n).isOrigin = some (n.nodeId == a.nodeId) ∧
      (mkPoint [a, b] n).isDestination = some (n.nodeId == b.nodeId)) ∧
    (∀ s, routeQueryEnabled s = true ↔
      (truthyStr s.sketchId = true ∧ s.selectedNodes.length = 2)) ∧
    (k ∈ issuedRouteRequests states ↔
      ∃ s ∈ states, routeQueryEnabled s = true ∧ routeQueryKey s = k) ∧
    (issuedRouteRequests states).Nodup := by
  refine ⟨rfl, ?_, ?_, ?_, ?_⟩
  · intro n
    constructor <;> simp [mkPoint]
  · intro s
    simp [routeQueryEnabled]
  · rw [issuedRouteRequests]
    rw [List.mem_dedup, List.mem_map]
    constructor
    · rintro ⟨s, hs, rfl⟩
      rw [List.mem_filter] at hs
      exact ⟨s, hs.1, hs.2, rfl⟩
    · rintro ⟨s, hs, he, rfl⟩
      exact ⟨s, List.mem_filter.mpr ⟨hs, he⟩, rfl⟩
  · exact List.nodup_dedup _

/-- Claim C6 witness: with a sketch open and nodes `a`, `b` selected, the
first node's point is flagged origin, the second's destination, and the
key (sketch-1, [a, b]) is among the issued requests, which contain no
duplicates. -/
theorem c6_witness :
    (mkPoint [nodeLoc, nodeLocB] nodeLoc).isOrigin = some true ∧
    (mkPoint [nodeLoc, nodeLocB] nodeLocB).isDestination = some true ∧
    (some "sketch-1", ["a", "b"]) ∈ issuedRouteRequests [stateWithSketch] ∧
    (issuedRouteRequests [stateWithSketch]).Nodup := by
  have h := c6_flags_and_request_once [nodeLoc, nodeLocB] nodeLoc nodeLocB
    [stateWithSketch] (some "sketch-1", ["a", "b"])
  refine ⟨?_, ?_, ?_, h.2.2.2.2⟩
  · exact ((h.2.1 nodeLoc).1).trans (by decide)
  · exact ((h.2.1 nodeLocB).2).trans (by decide)
  · exact h.2.2.2.1.mpr ⟨stateWithSketch, by decide, by decide, rfl⟩

end Flowsint
